import Mathlib

/-!
Verification development for the payment-service repository.

The repository is a Node/Express payment relay: it verifies Razorpay payment
signatures (HMAC-SHA256 over `orderId|paymentId`), persists payment attempts,
updates linked order/consultation records, and fans out notifications, all
governed by per-tenant ("app") configuration with a test-mode override policy.

This file is a shallow embedding of the decision logic of that repository:

* `sha256` / `hmacSha256` / `hmacSha256Hex` — the signature primitive used by
  the verify endpoint (`crypto.createHmac('sha256', secret).update(text).digest('hex')`).
* `mergeWithDefault` and the tenant-config data model — `src/app-config/index.js`.
* `updateOrderPaymentStatus` / `getOrderDetails` — `src/order-update/index.js`.
* `collectRecipients` / `sendPaymentNotification` — the notifications module.
* `verifyHandler` / `runVerify` — the `POST /api/payment/verify` handler of the
  main server file, including the test-mode soft-fail gate.

Theorems at the end settle the frozen claims about this code.
-/

set_option maxRecDepth 4000

namespace PaymentService

/-! ## SHA-256 (FIPS 180-4), bytes as `Nat` in [0,256) -/

/-- Truncate to a 32-bit word. -/
def w32 (n : Nat) : Nat := n % 4294967296

/-- Rotate a 32-bit word right by `n` bits. -/
def rotr (n x : Nat) : Nat := (x >>> n) ||| w32 (x <<< (32 - n))

/-- Bitwise complement on 32-bit words. -/
def bnot32 (x : Nat) : Nat := x ^^^ 0xFFFFFFFF

def ch (x y z : Nat) : Nat := (x &&& y) ^^^ (bnot32 x &&& z)

def maj (x y z : Nat) : Nat := (x &&& y) ^^^ (x &&& z) ^^^ (y &&& z)

def bigSigma0 (x : Nat) : Nat := rotr 2 x ^^^ rotr 13 x ^^^ rotr 22 x

def bigSigma1 (x : Nat) : Nat := rotr 6 x ^^^ rotr 11 x ^^^ rotr 25 x

def smallSigma0 (x : Nat) : Nat := rotr 7 x ^^^ rotr 18 x ^^^ (x >>> 3)

def smallSigma1 (x : Nat) : Nat := rotr 17 x ^^^ rotr 19 x ^^^ (x >>> 10)

/-- The 64 SHA-256 round constants of FIPS 180-4 §4.2.2 (decimal). -/
def roundK : List Nat :=
  [1116352408, 1899447441, 3049323471, 3921009573, 961987163, 1508970993, 2453635748, 2870763221,
   3624381080, 310598401, 607225278, 1426881987, 1925078388, 2162078206, 2614888103, 3248222580,
   3835390401, 4022224774, 264347078, 604807628, 770255983, 1249150122, 1555081692, 1996064986,
   2554220882, 2821834349, 2952996808, 3210313671, 3336571891, 3584528711, 113926993, 338241895,
   666307205, 773529912, 1294757372, 1396182291, 1695183700, 1986661051, 2177026350, 2456956037,
   2730485921, 2820302411, 3259730800, 3345764771, 3516065817, 3600352804, 4094571909, 275423344,
   430227734, 506948616, 659060556, 883997877, 958139571, 1322822218, 1537002063, 1747873779,
   1955562222, 2024104815, 2227730452, 2361852424, 2428436474, 2756734187, 3204031479, 3329325298]

/-- The eight 32-bit chaining values of SHA-256. -/
structure Hash8 where
  a : Nat
  b : Nat
  c : Nat
  d : Nat
  e : Nat
  f : Nat
  g : Nat
  h : Nat
deriving DecidableEq, Repr

/-- The eight SHA-256 initial hash values of FIPS 180-4 §5.3.3 (decimal). -/
def initH : Hash8 :=
  ⟨1779033703, 3144134277, 1013904242, 2773480762, 1359893119, 2600822924, 528734635, 1541459225⟩

/-- Group big-endian bytes into 32-bit words, four bytes at a time. -/
def bytesToWords : List Nat → List Nat
  | b0 :: b1 :: b2 :: b3 :: rest => (((b0 * 256 + b1) * 256 + b2) * 256 + b3) :: bytesToWords rest
  | _ => []

/-- Serialize a 32-bit word to four big-endian bytes. -/
def wordToBytes (w : Nat) : List Nat :=
  [(w >>> 24) % 256, (w >>> 16) % 256, (w >>> 8) % 256, w % 256]

/-- Extend the 16-word window `n` more times by the SHA-256 message-schedule
recurrence, returning the freshly produced words in order. -/
def extendWords : Nat → List Nat → List Nat
  | 0, _ => []
  | Nat.succ n, ws =>
    match ws with
    | [w0, w1, w2, w3, w4, w5, w6, w7, w8, w9, w10, w11, w12, w13, w14, w15] =>
      let nw := w32 (smallSigma1 w14 + w9 + smallSigma0 w1 + w0)
      nw :: extendWords n [w1, w2, w3, w4, w5, w6, w7, w8, w9, w10, w11, w12, w13, w14, w15, nw]
    | _ => []

/-- The 64-entry message schedule of one 512-bit block (given as 16 words). -/
def schedule (ws : List Nat) : List Nat := ws ++ extendWords 48 ws

/-- One SHA-256 compression round; `kw` is the round constant already added to
the scheduled word (mod 2^32). -/
def round (st : Hash8) (kw : Nat) : Hash8 :=
  let t1 := w32 (st.h + bigSigma1 st.e + ch st.e st.f st.g + kw)
  let t2 := w32 (bigSigma0 st.a + maj st.a st.b st.c)
  ⟨w32 (t1 + t2), st.a, st.b, st.c, w32 (st.d + t1), st.e, st.f, st.g⟩

/-- Compress one 64-byte block into the chaining state. -/
def compressBlock (h0 : Hash8) (block : List Nat) : Hash8 :=
  let ws := schedule (bytesToWords block)
  let kws := (List.zip roundK ws).map (fun p => w32 (p.fst + p.snd))
  let st := kws.foldl round h0
  ⟨w32 (h0.a + st.a), w32 (h0.b + st.b), w32 (h0.c + st.c), w32 (h0.d + st.d),
   w32 (h0.e + st.e), w32 (h0.f + st.f), w32 (h0.g + st.g), w32 (h0.h + st.h)⟩

/-- Big-endian encoding of `n` as eight bytes (the length field of the padding). -/
def lenBytes (n : Nat) : List Nat :=
  [(n >>> 56) % 256, (n >>> 48) % 256, (n >>> 40) % 256, (n >>> 32) % 256,
   (n >>> 24) % 256, (n >>> 16) % 256, (n >>> 8) % 256, n % 256]

/-- FIPS 180-4 padding: a 0x80 byte, zero bytes to 56 mod 64, then the bit
length as eight big-endian bytes. -/
def padMessage (msg : List Nat) : List Nat :=
  let len := msg.length
  let zeros := (64 - ((len + 9) % 64)) % 64
  msg ++ 0x80 :: List.replicate zeros 0 ++ lenBytes (len * 8)

/-- Split into 64-byte blocks; `fuel` bounds the recursion. -/
def toBlocksAux : Nat → List Nat → List (List Nat)
  | 0, _ => []
  | Nat.succ _, [] => []
  | Nat.succ n, l => l.take 64 :: toBlocksAux n (l.drop 64)

def toBlocks (l : List Nat) : List (List Nat) := toBlocksAux (l.length + 1) l

/-- Serialize the chaining state to the 32-byte digest. -/
def hashToBytes (fin : Hash8) : List Nat :=
  wordToBytes fin.a ++ wordToBytes fin.b ++ wordToBytes fin.c ++ wordToBytes fin.d ++
  wordToBytes fin.e ++ wordToBytes fin.f ++ wordToBytes fin.g ++ wordToBytes fin.h

/-- SHA-256 of a byte list, as 32 bytes. -/
def sha256 (msg : List Nat) : List Nat :=
  hashToBytes ((toBlocks (padMessage msg)).foldl compressBlock initH)

/-! ## HMAC-SHA256 (RFC 2104) and hex encoding -/

/-- HMAC-SHA256; keys longer than the 64-byte block are first hashed, shorter
keys are zero-padded to the block size. -/
def hmacSha256 (key msg : List Nat) : List Nat :=
  let k0 := if 64 < key.length then sha256 key else key
  let kp := k0 ++ List.replicate (64 - k0.length) 0
  let ipad := kp.map (fun b => b ^^^ 0x36)
  let opad := kp.map (fun b => b ^^^ 0x5c)
  sha256 (opad ++ sha256 (ipad ++ msg))

/-- Lowercase hex digit, matching Node's `digest('hex')`. -/
def hexDigit (n : Nat) : Char := if n < 10 then Char.ofNat (48 + n) else Char.ofNat (87 + n)

def bytesToHex (l : List Nat) : String :=
  ⟨(l.map (fun b => [hexDigit (b / 16), hexDigit (b % 16)])).flatten⟩

/-- UTF-8 encoding of one character (Node's default string encoding for
`hash.update`). -/
def utf8EncodeChar (c : Char) : List Nat :=
  let n := c.toNat
  if n < 0x80 then [n]
  else if n < 0x800 then [0xC0 + n / 0x40, 0x80 + n % 0x40]
  else if n < 0x10000 then
    [0xE0 + n / 0x1000, 0x80 + (n / 0x40) % 0x40, 0x80 + n % 0x40]
  else
    [0xF0 + n / 0x40000, 0x80 + (n / 0x1000) % 0x40, 0x80 + (n / 0x40) % 0x40, 0x80 + n % 0x40]

def utf8Bytes (s : String) : List Nat := (s.data.map utf8EncodeChar).flatten

/-- The generated signature of the verify endpoint:
`crypto.createHmac('sha256', secret).update(text).digest('hex')`. -/
def hmacSha256Hex (secret text : String) : String :=
  bytesToHex (hmacSha256 (utf8Bytes secret) (utf8Bytes text))

/-- Known-answer test: SHA-256 of the empty message (FIPS vector). -/
theorem sha256_empty_vector :
    bytesToHex (sha256 []) = "e3b0c44298fc1c149afbf4c8996fb92427ae41e4649b934ca495991b7852b855" := by
  decide

/-- Known-answer test: SHA-256 of "abc" (FIPS vector). -/
theorem sha256_abc_vector :
    bytesToHex (sha256 (utf8Bytes "abc")) =
      "ba7816bf8f01cfea414140de5dae2223b00361a396177a9cb410ff61f20015ad" := by
  decide

/-- Known-answer test: HMAC-SHA256, RFC 4231 test case 2. -/
theorem hmac_rfc4231_case2 :
    hmacSha256Hex "Jefe" "what do ya want for nothing?" =
      "5bdcc146bf60754e6a042426089575c75a003f089d2739839dec58b964ec3843" := by
  decide

/-! ## Tenant ("app") configuration — `src/app-config/index.js`

JS objects with possibly-absent keys are modelled as structures of `Option`
fields; `none` is an absent key. JS truthiness tests on strings and booleans
are modelled by `truthyS` and `truthyB` (empty string and `false` are falsy),
and `x || 'd'` by `orDefault`. -/

def truthyS : Option String → Bool
  | some s => !s.isEmpty
  | none => false

def truthyB : Option Bool → Bool
  | some b => b
  | none => false

/-- JS `x || d` for an optional string configuration value. -/
def orDefault (o : Option String) (d : String) : String :=
  match o with
  | some s => if s.isEmpty then d else s
  | none => d

structure OneSignalConfig where
  appId : Option String
  restApiKey : Option String
deriving DecidableEq, Repr

structure NotificationsConfig where
  enabled : Option Bool
  provider : Option String
  onesignal : Option OneSignalConfig
  customEndpoint : Option String
deriving DecidableEq, Repr

structure CollectionsConfig where
  orders : Option String
  consultations : Option String
  payments : Option String
  users : Option String
deriving DecidableEq, Repr

structure OrderUpdateConfig where
  enabled : Option Bool
  useFirebase : Option Bool
  endpoint : Option String
  collections : Option CollectionsConfig
deriving DecidableEq, Repr

structure TestModeConfig where
  autoDetect : Option Bool
  bookOnPaymentFailure : Option Bool
deriving DecidableEq, Repr

structure AppConfig where
  name : Option String
  notifications : Option NotificationsConfig
  orderUpdate : Option OrderUpdateConfig
  testMode : Option TestModeConfig
deriving DecidableEq, Repr

/-- JS `{...d.notifications?.onesignal, ...a.notifications?.onesignal}`. -/
def mergeOneSignal (d a : Option OneSignalConfig) : OneSignalConfig :=
  { appId := (a.bind fun o => o.appId) <|> (d.bind fun o => o.appId),
    restApiKey := (a.bind fun o => o.restApiKey) <|> (d.bind fun o => o.restApiKey) }

/-- JS `{...d.notifications, ...a.notifications, onesignal: {...}}`. -/
def mergeNotifications (d a : Option NotificationsConfig) : NotificationsConfig :=
  { enabled := (a.bind fun n => n.enabled) <|> (d.bind fun n => n.enabled),
    provider := (a.bind fun n => n.provider) <|> (d.bind fun n => n.provider),
    customEndpoint := (a.bind fun n => n.customEndpoint) <|> (d.bind fun n => n.customEndpoint),
    onesignal := some (mergeOneSignal (d.bind fun n => n.onesignal) (a.bind fun n => n.onesignal)) }

def mergeCollections (d a : Option CollectionsConfig) : CollectionsConfig :=
  { orders := (a.bind fun c => c.orders) <|> (d.bind fun c => c.orders),
    consultations := (a.bind fun c => c.consultations) <|> (d.bind fun c => c.consultations),
    payments := (a.bind fun c => c.payments) <|> (d.bind fun c => c.payments),
    users := (a.bind fun c => c.users) <|> (d.bind fun c => c.users) }

def mergeOrderUpdate (d a : Option OrderUpdateConfig) : OrderUpdateConfig :=
  { enabled := (a.bind fun o => o.enabled) <|> (d.bind fun o => o.enabled),
    useFirebase := (a.bind fun o => o.useFirebase) <|> (d.bind fun o => o.useFirebase),
    endpoint := (a.bind fun o => o.endpoint) <|> (d.bind fun o => o.endpoint),
    collections := some (mergeCollections (d.bind fun o => o.collections) (a.bind fun o => o.collections)) }

def mergeTestMode (d a : Option TestModeConfig) : TestModeConfig :=
  { autoDetect := (a.bind fun t => t.autoDetect) <|> (d.bind fun t => t.autoDetect),
    bookOnPaymentFailure :=
      (a.bind fun t => t.bookOnPaymentFailure) <|> (d.bind fun t => t.bookOnPaymentFailure) }

/-- `mergeWithDefault` of `src/app-config/index.js`: a top-level spread of the
tenant config over the default config, with the nested objects
`notifications`, `notifications.onesignal`, `orderUpdate`,
`orderUpdate.collections` and `testMode` each rebuilt by a shallow per-key
spread. `d` is the loaded `default` entry, `a` the tenant's own entry. -/
def mergeWithDefault (d a : AppConfig) : AppConfig :=
  { name := a.name <|> d.name,
    notifications := some (mergeNotifications d.notifications a.notifications),
    orderUpdate := some (mergeOrderUpdate d.orderUpdate a.orderUpdate),
    testMode := some (mergeTestMode d.testMode a.testMode) }

/-- The `default` entry of `config/apps.js` (environment fallbacks taken:
`ONESIGNAL_APP_ID` falls back to the literal, `ONESIGNAL_REST_API_KEY` to
the empty string). -/
def defaultAppConfig : AppConfig :=
  { name := some "MediFind",
    notifications := some
      { enabled := some true,
        provider := some "onesignal",
        onesignal := some
          { appId := some "b0020b77-3e0c-43c5-b92e-912b1cec1623", restApiKey := some "" },
        customEndpoint := none },
    orderUpdate := some
      { enabled := some true,
        useFirebase := some true,
        endpoint := none,
        collections := some
          { orders := some "orders", consultations := some "consultations",
            payments := some "payments", users := some "users" } },
    testMode := some { autoDetect := some true, bookOnPaymentFailure := some true } }

/-! ## Record store model — the Firebase backends of `src/order-update/index.js`

Documents are the fixed field subset the service reads and writes; a backend
(Firestore or the Realtime Database) is a list of named collections of
documents. Fault injection (`World`) models a backend client whose calls
throw, which the source catches per block. -/

structure DocFields where
  paymentStatus : Option String
  paymentId : Option String
  paidAt : Option Nat
  updatedAt : Option Nat
  patientId : Option String
  userId : Option String
  customerId : Option String
  doctorId : Option String
  providerId : Option String
  sellerId : Option String
  role : Option String
deriving DecidableEq, Repr

def emptyDoc : DocFields := ⟨none, none, none, none, none, none, none, none, none, none, none⟩

abbrev Collection := List (String × DocFields)

structure BackendData where
  colls : List (String × Collection)
deriving DecidableEq, Repr

def collGet (c : Collection) (id : String) : Option DocFields :=
  match c.find? (fun p => p.fst == id) with
  | some p => some p.snd
  | none => none

def collPut : Collection → String → DocFields → Collection
  | [], id, d => [(id, d)]
  | (k, v) :: rest, id, d => if k == id then (id, d) :: rest else (k, v) :: collPut rest id d

def getColl (b : BackendData) (name : String) : Collection :=
  match b.colls.find? (fun p => p.fst == name) with
  | some p => p.snd
  | none => []

def collsPut : List (String × Collection) → String → Collection → List (String × Collection)
  | [], name, c => [(name, c)]
  | (k, v) :: rest, name, c => if k == name then (name, c) :: rest else (k, v) :: collsPut rest name c

def getDoc (b : BackendData) (name id : String) : Option DocFields :=
  collGet (getColl b name) id

def putDoc (b : BackendData) (name id : String) (d : DocFields) : BackendData :=
  ⟨collsPut b.colls name (collPut (getColl b name) id d)⟩

/-- A payment record as written to the `payments` node. -/
structure PaymentRecord where
  razorpayPaymentId : String
  razorpayOrderId : String
  razorpaySignature : Option String
  amount : Option Nat
  status : String
  verified : Option Bool
  consultationId : Option String
  createdAt : Nat
deriving DecidableEq, Repr

structure Store where
  firestoreAvailable : Bool
  fs : BackendData
  rtdb : BackendData
  payments : List PaymentRecord
deriving DecidableEq, Repr

/-- Fault injection and external-HTTP outcomes for one request: whether each
backend client throws on use, and what a configured custom GET endpoint
returns (`none` = not ok). -/
structure World where
  fsThrows : Bool
  rtdbThrows : Bool
  endpointDoc : Option DocFields
deriving DecidableEq, Repr

def noFault : World := ⟨false, false, none⟩

/-- The `updateData` object assembled by `updateOrderPaymentStatus`. -/
structure UpdateData where
  paymentStatus : String
  paymentId : Option String
  paidAt : Option Nat
  updatedAt : Nat
deriving DecidableEq, Repr

/-- Merging an update object into a document, as Firestore `update` and RTDB
`update` do: only the named fields are overwritten. -/
def applyUpdate (d : DocFields) (u : UpdateData) : DocFields :=
  { d with
    paymentStatus := some u.paymentStatus,
    updatedAt := some u.updatedAt,
    paymentId := match u.paymentId with | some p => some p | none => d.paymentId,
    paidAt := match u.paidAt with | some t => some t | none => d.paidAt }

/-- RTDB `ref(path).update(...)` creates the path when absent. -/
def rtdbUpsert (b : BackendData) (cname id : String) (u : UpdateData) : BackendData :=
  match getDoc b cname id with
  | some d => putDoc b cname id (applyUpdate d u)
  | none => putDoc b cname id (applyUpdate emptyDoc u)

/-- The Realtime-Database fallback block of `updateOrderPaymentStatus`: try the
consultations node, then the orders node, updating only an existing record;
a throwing client is caught and leaves the store unchanged. -/
def updateRtdbFallback (w : World) (st : Store) (cColl oColl orderId : String) (u : UpdateData) :
    Store :=
  if w.rtdbThrows then st
  else
    match getDoc st.rtdb cColl orderId with
    | some d => { st with rtdb := putDoc st.rtdb cColl orderId (applyUpdate d u) }
    | none =>
      match getDoc st.rtdb oColl orderId with
      | some d => { st with rtdb := putDoc st.rtdb oColl orderId (applyUpdate d u) }
      | none => st

/-- JS `collections.consultations || 'consultations'` over the tenant config. -/
def consultCollOf (cfg : AppConfig) : String :=
  orDefault ((cfg.orderUpdate.bind fun o => o.collections).bind fun c => c.consultations)
    "consultations"

/-- JS `collections.orders || 'orders'` over the tenant config. -/
def ordersCollOf (cfg : AppConfig) : String :=
  orDefault ((cfg.orderUpdate.bind fun o => o.collections).bind fun c => c.orders) "orders"

/-- JS `collections.users || 'users'` over the tenant config. -/
def usersCollOf (cfg : AppConfig) : String :=
  orDefault ((cfg.orderUpdate.bind fun o => o.collections).bind fun c => c.users) "users"

/-- `updateOrderPaymentStatus` of `src/order-update/index.js`: no-op unless
`orderUpdate.enabled`; a configured custom endpoint (with `useFirebase` falsy)
is PATCHed externally and touches no store; otherwise Firestore is tried first
(consultations collection, then orders), falling back to the Realtime Database;
every error is caught and swallowed, so the function always returns normally. -/
def updateOrderPaymentStatus (cfg : AppConfig) (w : World) (now : Nat) (st : Store)
    (orderId paymentStatus : String) (paymentId : Option String) : Store :=
  let ou := cfg.orderUpdate
  if !truthyB (ou.bind fun o => o.enabled) then st
  else
    let u : UpdateData :=
      { paymentStatus := paymentStatus,
        paymentId := if truthyS paymentId then paymentId else none,
        paidAt := if paymentStatus == "paid" then some now else none,
        updatedAt := now }
    let cColl := consultCollOf cfg
    let oColl := ordersCollOf cfg
    if truthyS (ou.bind fun o => o.endpoint) && !truthyB (ou.bind fun o => o.useFirebase) then
      st
    else if truthyB (ou.bind fun o => o.useFirebase) then
      if st.firestoreAvailable && !w.fsThrows then
        match getDoc st.fs cColl orderId with
        | some d => { st with fs := putDoc st.fs cColl orderId (applyUpdate d u) }
        | none =>
          match getDoc st.fs oColl orderId with
          | some d => { st with fs := putDoc st.fs oColl orderId (applyUpdate d u) }
          | none => updateRtdbFallback w st cColl oColl orderId u
      else updateRtdbFallback w st cColl oColl orderId u
    else st

/-- `getOrderDetails` of `src/order-update/index.js`: `null` unless
`orderUpdate.enabled`; a configured custom endpoint (with `useFirebase` falsy)
is fetched first and its body returned when ok; then Firestore (consultations,
then orders), then the Realtime Database; errors are caught per block. -/
def getOrderDetails (cfg : AppConfig) (w : World) (st : Store) (orderId : String) :
    Option DocFields :=
  let ou := cfg.orderUpdate
  if !truthyB (ou.bind fun o => o.enabled) then none
  else
    let cColl := consultCollOf cfg
    let oColl := ordersCollOf cfg
    let fromEndpoint :=
      if truthyS (ou.bind fun o => o.endpoint) && !truthyB (ou.bind fun o => o.useFirebase) then
        w.endpointDoc
      else none
    fromEndpoint <|>
      (if truthyB (ou.bind fun o => o.useFirebase) then
        (if st.firestoreAvailable && !w.fsThrows then
          getDoc st.fs cColl orderId <|> getDoc st.fs oColl orderId
        else none) <|>
        (if !w.rtdbThrows then
          getDoc st.rtdb cColl orderId <|> getDoc st.rtdb oColl orderId
        else none)
      else none)

/-! ## Notification dispatch — the notifications module

Only the dispatch decision is modelled: whether a provider call happens, with
which provider and which recipient ids. Titles, bodies and the JSON payload
carry no decision logic and are omitted. -/

structure NotifyCall where
  provider : String
  recipients : List String
deriving DecidableEq, Repr

/-- Admin-id collection of `sendPaymentNotification`: query the users
collection for `role == 'admin'` in Firestore, falling back to the Realtime
Database when Firestore throws; both failures are swallowed. -/
def adminIds (w : World) (st : Store) (usersColl : String) : List String :=
  if st.firestoreAvailable && !w.fsThrows then
    ((getColl st.fs usersColl).filter (fun p => p.snd.role == some "admin")).map (fun p => p.fst)
  else if !w.rtdbThrows then
    ((getColl st.rtdb usersColl).filter (fun p => p.snd.role == some "admin")).map (fun p => p.fst)
  else []

/-- First truthy value of a chain of `if/else if` JS field tests. -/
def firstTruthy : List (Option String) → List String
  | [] => []
  | o :: rest =>
    match o with
    | some s => if s.isEmpty then firstTruthy rest else [s]
    | none => firstTruthy rest

/-- Recipient collection of `sendPaymentNotification`: the record's
patient/user id (`patientId`, else `userId`), then its doctor/provider id
(`doctorId`, else `providerId`, else `sellerId`), then the admin ids. Ids are
pushed as found; the source performs no deduplication. -/
def collectRecipients (d : DocFields) (admins : List String) : List String :=
  firstTruthy [d.patientId, d.userId] ++ firstTruthy [d.doctorId, d.providerId, d.sellerId]
    ++ admins

/-- `sendPaymentNotification` of the notifications module, reduced to its
dispatch decision: skip when notifications are not enabled; collect recipient
ids; skip (with a logged warning) when none were found; then switch on the
provider — OneSignal requires a non-empty REST API key (config value, else the
environment's), the custom provider requires a configured endpoint, and
`fcm`/`none`/unknown providers only log. `envRestKey` is
`process.env.ONESIGNAL_REST_API_KEY || ''`. -/
def sendPaymentNotification (cfg : AppConfig) (w : World) (st : Store) (envRestKey : String)
    (d : DocFields) : Option NotifyCall :=
  let nc := cfg.notifications
  if !truthyB (nc.bind fun n => n.enabled) then none
  else
    let provider := orDefault (nc.bind fun n => n.provider) "onesignal"
    let ids := collectRecipients d (adminIds w st (usersCollOf cfg))
    if ids.isEmpty then none
    else if provider == "onesignal" then
      let key := orDefault ((nc.bind fun n => n.onesignal).bind fun o => o.restApiKey) envRestKey
      if key.isEmpty then none else some ⟨"onesignal", ids⟩
    else if provider == "custom" then
      if truthyS (nc.bind fun n => n.customEndpoint) then some ⟨"custom", ids⟩ else none
    else none

/-- The `sendPaymentNotifications` wrapper of the main server file: fetch the
linked record via `getOrderDetails` and skip entirely when it is not found,
else delegate to the notifications module. (The wrapper also builds its own
recipient list, which it never uses; that dead computation is omitted.) -/
def sendPaymentNotifications (cfg : AppConfig) (w : World) (st : Store) (envRestKey : String)
    (cid : String) : Option NotifyCall :=
  match getOrderDetails cfg w st cid with
  | none => none
  | some d => sendPaymentNotification cfg w st envRestKey d

/-! ## The verify endpoint — `POST /api/payment/verify` of the main server -/

/-- Process environment of the server, plus the store's server-assigned
timestamp value for this request. -/
structure Env where
  keyId : String
  keySecret : String
  databaseConfigured : Bool
  onesignalRestApiKey : String
  now : Nat
deriving DecidableEq, Repr

/-- The verify request body. A missing `razorpay_*` field and an empty one are
indistinguishable to the handler's falsiness check, so both are the empty
string. `isTestMode` destructures with default `false`. -/
structure VerifyRequest where
  razorpay_order_id : String
  razorpay_payment_id : String
  razorpay_signature : String
  consultationId : Option String
  amount : Option Nat
  isTestMode : Bool
deriving DecidableEq, Repr

/-- The JSON response of the verify endpoint, with its HTTP status. Absent
body keys are `none`. -/
structure VerifyResponse where
  status : Nat
  success : Bool
  error : Option String
  message : Option String
  payment_id : Option String
  order_id : Option String
  verified_at : Option Nat
  consultation_booked : Option Bool
deriving DecidableEq, Repr

/-- JS `x || null` on an optional number (0 is falsy). -/
def amountOrNull (a : Option Nat) : Option Nat :=
  match a with
  | some n => if n == 0 then none else some n
  | none => none

/-- JS `x || null` on an optional string. -/
def orNullS (o : Option String) : Option String := if truthyS o then o else none

/-- `savePaymentToDatabase` of the main server: skip when Firebase is not
configured; push a `completed`, `verified` payment record onto the `payments`
node, and, when a consultation id is present, update the hardcoded
`consultations` node to `paid`; a throwing client is caught and swallowed. -/
def savePaymentToDatabase (env : Env) (w : World) (st : Store) (paymentId orderId : String)
    (signature : Option String) (amount : Option Nat) (cid : Option String) : Store :=
  if !env.databaseConfigured then st
  else if w.rtdbThrows then st
  else
    let rec1 : PaymentRecord :=
      { razorpayPaymentId := paymentId,
        razorpayOrderId := orderId,
        razorpaySignature := signature,
        amount := amountOrNull amount,
        status := "completed",
        verified := some true,
        consultationId := orNullS cid,
        createdAt := env.now }
    let st1 := { st with payments := st.payments ++ [rec1] }
    let u : UpdateData := ⟨"paid", some paymentId, some env.now, env.now⟩
    if truthyS cid then
      { st1 with rtdb := rtdbUpsert st1.rtdb "consultations" (cid.getD "") u }
    else st1

/-- JS `s.startsWith(pre)`, as a character-list prefix test. -/
def strStartsWith (s pre : String) : Bool := List.isPrefixOf pre.data s.data

/-- The signature check of the verify endpoint: the hex HMAC-SHA256 digest of
`orderId|paymentId` under the secret, compared to the supplied signature with
`===`. -/
def verifySignature (orderId paymentId signature secret : String) : Bool :=
  hmacSha256Hex secret (orderId ++ "|" ++ paymentId) == signature

/-- Result of one verify request: the HTTP response, the final store, and the
notification provider call (if any was dispatched). -/
structure VerifyResult where
  resp : VerifyResponse
  store : Store
  notif : Option NotifyCall
deriving DecidableEq, Repr

/-- The `POST /api/payment/verify` handler. Control flow of the source:

1. Reject with 400 when any of the three `razorpay_*` fields is falsy.
2. Compute the HMAC-SHA256 hex digest of `orderId|paymentId` under
   `RAZORPAY_KEY_SECRET` and compare it to the supplied signature with `===`.
3. On a valid signature: fire-and-forget `savePaymentToDatabase`, await
   `updateOrderPaymentStatus(..., 'paid', paymentId)` when a consultation id
   is present, fire-and-forget notifications, and respond 200 success.
4. On an invalid signature: when (the payment id starts with `pay_test_`, or
   the key id starts with `rzp_test_`, or the request declares test mode, or
   the tenant's `testMode.autoDetect` is truthy) and a consultation id is
   present and `testMode.bookOnPaymentFailure !== false`, soft-fail: update
   the record to `pending`, notify, and respond 200 with `success:false` and
   `consultation_booked:true`; otherwise hard-fail with 400.

All awaited helpers catch their own errors, so the handler's outer try/catch
(500) is unreachable and not modelled. -/
def verifyHandler (env : Env) (cfg : AppConfig) (w : World) (st : Store) (req : VerifyRequest) :
    VerifyResult :=
  if req.razorpay_order_id.isEmpty || req.razorpay_payment_id.isEmpty
      || req.razorpay_signature.isEmpty then
    { resp :=
      { status := 400, success := false,
        error := some "Missing required payment details: razorpay_order_id, razorpay_payment_id, and razorpay_signature are required",
        message := none, payment_id := none, order_id := none, verified_at := none,
        consultation_booked := none },
      store := st, notif := none }
  else
    let isSignatureValid := verifySignature req.razorpay_order_id req.razorpay_payment_id
      req.razorpay_signature env.keySecret
    let isTestPayment := strStartsWith req.razorpay_payment_id "pay_test_"
      || strStartsWith env.keyId "rzp_test_" || req.isTestMode
    if isSignatureValid then
      let st1 := savePaymentToDatabase env w st req.razorpay_payment_id req.razorpay_order_id
        (some req.razorpay_signature) req.amount req.consultationId
      let st2 :=
        if truthyS req.consultationId then
          updateOrderPaymentStatus cfg w env.now st1 (req.consultationId.getD "") "paid"
            (some req.razorpay_payment_id)
        else st1
      let ntf :=
        if truthyS req.consultationId then
          sendPaymentNotifications cfg w st2 env.onesignalRestApiKey (req.consultationId.getD "")
        else none
      { resp :=
        { status := 200, success := true, error := none,
          message := some "Payment verified successfully",
          payment_id := some req.razorpay_payment_id,
          order_id := some req.razorpay_order_id,
          verified_at := some env.now, consultation_booked := none },
        store := st2, notif := ntf }
    else
      let shouldBookOnFailure := !((cfg.testMode.bind fun t => t.bookOnPaymentFailure) == some false)
      if (isTestPayment || truthyB (cfg.testMode.bind fun t => t.autoDetect))
          && truthyS req.consultationId && shouldBookOnFailure then
        let st2 := updateOrderPaymentStatus cfg w env.now st (req.consultationId.getD "")
          "pending" none
        let ntf := sendPaymentNotifications cfg w st2 env.onesignalRestApiKey
          (req.consultationId.getD "")
        { resp :=
          { status := 200, success := false,
            error := some "Invalid payment signature (test mode)",
            message := some "Payment verification failed, but consultation has been booked (test mode)",
            payment_id := some req.razorpay_payment_id, order_id := none,
            verified_at := none, consultation_booked := some true },
          store := st2, notif := ntf }
      else
        { resp :=
          { status := 400, success := false, error := some "Invalid payment signature",
            message := none, payment_id := some req.razorpay_payment_id, order_id := none,
            verified_at := none, consultation_booked := none },
          store := st, notif := none }

/-! ## Helper lemmas -/

theorem hashToBytes_length (fin : Hash8) : (hashToBytes fin).length = 32 := by
  simp [hashToBytes, wordToBytes]

theorem sha256_length (msg : List Nat) : (sha256 msg).length = 32 :=
  hashToBytes_length _

theorem hexChars_length (l : List Nat) :
    ((l.map (fun b => [hexDigit (b / 16), hexDigit (b % 16)])).flatten).length = 2 * l.length := by
  induction l with
  | nil => rfl
  | cons b rest ih =>
    simp [ih]
    omega

theorem bytesToHex_length (l : List Nat) : (bytesToHex l).length = 2 * l.length :=
  hexChars_length l

theorem hmacSha256_length (key msg : List Nat) : (hmacSha256 key msg).length = 32 := by
  simp [hmacSha256, sha256_length]

theorem hmacSha256Hex_length (secret text : String) : (hmacSha256Hex secret text).length = 64 := by
  simp [hmacSha256Hex, bytesToHex_length, hmacSha256_length]

theorem verifySignature_iff (orderId paymentId signature secret : String) :
    verifySignature orderId paymentId signature secret = true ↔
      signature = hmacSha256Hex secret (orderId ++ "|" ++ paymentId) := by
  unfold verifySignature
  constructor
  · intro h
    exact (eq_of_beq h).symm
  · intro h
    rw [h]
    exact beq_self_eq_true _

theorem verifySignature_false_of_ne {orderId paymentId signature secret : String}
    (h : signature ≠ hmacSha256Hex secret (orderId ++ "|" ++ paymentId)) :
    verifySignature orderId paymentId signature secret = false := by
  simp only [verifySignature, beq_eq_false_iff_ne, ne_eq]
  exact fun h2 => h h2.symm

theorem collGet_collPut_same (c : Collection) (id : String) (d : DocFields) :
    collGet (collPut c id d) id = some d := by
  induction c with
  | nil => simp [collPut, collGet, List.find?]
  | cons p rest ih =>
    obtain ⟨k, v⟩ := p
    by_cases h : k = id
    · subst h
      simp [collPut, collGet, List.find?]
    · have hb : (k == id) = false := beq_eq_false_iff_ne.mpr h
      simp only [collPut, hb, Bool.false_eq_true, if_false]
      simpa [collGet, List.find?, hb] using ih

theorem getColl_collsPut_same (l : List (String × Collection)) (name : String) (c : Collection) :
    getColl ⟨collsPut l name c⟩ name = c := by
  induction l with
  | nil => simp [collsPut, getColl, List.find?]
  | cons p rest ih =>
    obtain ⟨k, v⟩ := p
    by_cases h : k = name
    · subst h
      simp [collsPut, getColl, List.find?]
    · have hb : (k == name) = false := beq_eq_false_iff_ne.mpr h
      simp only [collsPut, hb, Bool.false_eq_true, if_false]
      simpa [getColl, List.find?, hb] using ih

theorem getDoc_putDoc_same (b : BackendData) (name id : String) (d : DocFields) :
    getDoc (putDoc b name id d) name id = some d := by
  simp [getDoc, putDoc, getColl_collsPut_same, collGet_collPut_same]

theorem updateRtdbFallback_payments (w : World) (st : Store) (cColl oColl orderId : String)
    (u : UpdateData) : (updateRtdbFallback w st cColl oColl orderId u).payments = st.payments := by
  simp only [updateRtdbFallback]
  repeat' split
  all_goals rfl

theorem updateOrderPaymentStatus_payments (cfg : AppConfig) (w : World) (now : Nat) (st : Store)
    (orderId ps : String) (pid : Option String) :
    (updateOrderPaymentStatus cfg w now st orderId ps pid).payments = st.payments := by
  simp only [updateOrderPaymentStatus]
  repeat' split
  all_goals first
  | rfl
  | apply updateRtdbFallback_payments

theorem hmacHex_ne_empty (secret text : String) : hmacSha256Hex secret text ≠ "" := by
  intro he
  have h64 := hmacSha256Hex_length secret text
  rw [he] at h64
  simp at h64

theorem isEmpty_eq_false_of_eq_hmac {s secret text : String} (h : s = hmacSha256Hex secret text) :
    s.isEmpty = false := by
  rw [h]
  cases hb : (hmacSha256Hex secret text).isEmpty
  · rfl
  · exact absurd ((String.isEmpty_iff _).mp hb) (hmacHex_ne_empty secret text)

/-! ## Claim theorems -/

/-- Claim C3: for every verify request whose signature is valid (and whose
required fields are present), the orchestrator takes the Success path —
HTTP 200 with `success:true` and no test-mode flag — regardless of the
request's test-mode input, the tenant's test-mode configuration, the world's
faults and the store contents: test-mode logic never downgrades a valid
signature. -/
theorem claim_C3_valid_signature_success (env : Env) (cfg : AppConfig) (w : World) (st : Store)
    (req : VerifyRequest)
    (ho : req.razorpay_order_id.isEmpty = false)
    (hp : req.razorpay_payment_id.isEmpty = false)
    (hs : req.razorpay_signature
      = hmacSha256Hex env.keySecret (req.razorpay_order_id ++ "|" ++ req.razorpay_payment_id)) :
    (verifyHandler env cfg w st req).resp.success = true ∧
    (verifyHandler env cfg w st req).resp.status = 200 ∧
    (verifyHandler env cfg w st req).resp.message = some "Payment verified successfully" ∧
    (verifyHandler env cfg w st req).resp.consultation_booked = none := by
  have hsg : req.razorpay_signature.isEmpty = false := isEmpty_eq_false_of_eq_hmac hs
  have hv : verifySignature req.razorpay_order_id req.razorpay_payment_id
      req.razorpay_signature env.keySecret = true := (verifySignature_iff ..).mpr hs
  simp [verifyHandler, ho, hp, hsg, hv]

/-! ## Concrete fixtures for witnesses -/

/-- The merged tenant config a request under the default tenant sees. -/
def cfgFix : AppConfig := mergeWithDefault defaultAppConfig defaultAppConfig

/-- A tenant config whose `testMode.bookOnPaymentFailure` is explicitly false. -/
def cfgHardFix : AppConfig := { cfgFix with testMode := some ⟨some true, some false⟩ }

def envFix : Env :=
  { keyId := "rzp_test_abc", keySecret := "testsecret", databaseConfigured := true,
    onesignalRestApiKey := "", now := 5 }

def docFix : DocFields := { emptyDoc with patientId := some "u1", doctorId := some "d1" }

def storeFix : Store :=
  { firestoreAvailable := true,
    fs := ⟨[("consultations", [("c1", docFix)]),
            ("users", [("a1", { emptyDoc with role := some "admin" })])]⟩,
    rtdb := ⟨[]⟩,
    payments := [] }

/-- A request whose signature cannot match (it is not even 64 characters). -/
def reqInvalidFix : VerifyRequest :=
  { razorpay_order_id := "order_1", razorpay_payment_id := "pay_test_1",
    razorpay_signature := "bad", consultationId := some "c1", amount := some 50000,
    isTestMode := false }

/-- The same request with the correctly computed signature. -/
def reqValidFix : VerifyRequest :=
  { reqInvalidFix with razorpay_signature := hmacSha256Hex "testsecret" "order_1|pay_test_1" }

theorem reqInvalidFix_signature_ne : reqInvalidFix.razorpay_signature
    ≠ hmacSha256Hex envFix.keySecret
      (reqInvalidFix.razorpay_order_id ++ "|" ++ reqInvalidFix.razorpay_payment_id) := by
  intro h
  have h64 := hmacSha256Hex_length envFix.keySecret
    (reqInvalidFix.razorpay_order_id ++ "|" ++ reqInvalidFix.razorpay_payment_id)
  rw [← h] at h64
  exact absurd h64 (by decide)

/-- Witness for claim C3 at a concrete request. -/
theorem claim_C3_witness :
    (verifyHandler envFix cfgFix noFault storeFix reqValidFix).resp.success = true ∧
    (verifyHandler envFix cfgFix noFault storeFix reqValidFix).resp.status = 200 ∧
    (verifyHandler envFix cfgFix noFault storeFix reqValidFix).resp.message
      = some "Payment verified successfully" ∧
    (verifyHandler envFix cfgFix noFault storeFix reqValidFix).resp.consultation_booked = none :=
  claim_C3_valid_signature_success envFix cfgFix noFault storeFix reqValidFix rfl rfl (by decide)

/-- Claim C5: a verify request missing (or carrying an empty) `orderId`,
`paymentId` or `signature` is rejected with HTTP 400 before the signature
comparison, and neither the record store nor the notification dispatcher is
invoked: the store is returned unchanged and no provider call happens. -/
theorem claim_C5_invalid_request (env : Env) (cfg : AppConfig) (w : World) (st : Store)
    (req : VerifyRequest)
    (h : req.razorpay_order_id.isEmpty = true ∨ req.razorpay_payment_id.isEmpty = true
      ∨ req.razorpay_signature.isEmpty = true) :
    (verifyHandler env cfg w st req).resp.status = 400 ∧
    (verifyHandler env cfg w st req).resp.success = false ∧
    (verifyHandler env cfg w st req).resp.error
      = some "Missing required payment details: razorpay_order_id, razorpay_payment_id, and razorpay_signature are required" ∧
    (verifyHandler env cfg w st req).store = st ∧
    (verifyHandler env cfg w st req).notif = none := by
  have hc : (req.razorpay_order_id.isEmpty || req.razorpay_payment_id.isEmpty
      || req.razorpay_signature.isEmpty) = true := by
    rcases h with h | h | h <;> simp [h]
  simp [verifyHandler, hc]

/-- Witness for claim C5: empty signature field. -/
theorem claim_C5_witness :
    (verifyHandler envFix cfgFix noFault storeFix
        { reqInvalidFix with razorpay_signature := "" }).resp.status = 400 ∧
    (verifyHandler envFix cfgFix noFault storeFix
        { reqInvalidFix with razorpay_signature := "" }).resp.success = false ∧
    (verifyHandler envFix cfgFix noFault storeFix
        { reqInvalidFix with razorpay_signature := "" }).resp.error
      = some "Missing required payment details: razorpay_order_id, razorpay_payment_id, and razorpay_signature are required" ∧
    (verifyHandler envFix cfgFix noFault storeFix
        { reqInvalidFix with razorpay_signature := "" }).store = storeFix ∧
    (verifyHandler envFix cfgFix noFault storeFix
        { reqInvalidFix with razorpay_signature := "" }).notif = none :=
  claim_C5_invalid_request envFix cfgFix noFault storeFix _ (Or.inr (Or.inr (by decide)))

/-- Claim C6: on the HardFail path — invalid signature with the soft-fail gate
unsatisfied (for instance `testMode.bookOnPaymentFailure` explicitly false) —
the linked record is not written (the whole store is unchanged), no
notification is dispatched, and the response is the explicit 400
verification-failure error with no `consultation_booked` flag. -/
theorem claim_C6_hard_fail (env : Env) (cfg : AppConfig) (w : World) (st : Store)
    (req : VerifyRequest)
    (ho : req.razorpay_order_id.isEmpty = false)
    (hp : req.razorpay_payment_id.isEmpty = false)
    (hsg : req.razorpay_signature.isEmpty = false)
    (hsig : req.razorpay_signature ≠ hmacSha256Hex env.keySecret
      (req.razorpay_order_id ++ "|" ++ req.razorpay_payment_id))
    (hgate : ((strStartsWith req.razorpay_payment_id "pay_test_" || strStartsWith env.keyId "rzp_test_"
        || req.isTestMode) || truthyB (cfg.testMode.bind fun t => t.autoDetect)) = false
      ∨ truthyS req.consultationId = false
      ∨ (cfg.testMode.bind fun t => t.bookOnPaymentFailure) = some false) :
    (verifyHandler env cfg w st req).resp.status = 400 ∧
    (verifyHandler env cfg w st req).resp.success = false ∧
    (verifyHandler env cfg w st req).resp.error = some "Invalid payment signature" ∧
    (verifyHandler env cfg w st req).resp.consultation_booked = none ∧
    (verifyHandler env cfg w st req).store = st ∧
    (verifyHandler env cfg w st req).notif = none := by
  have hv := verifySignature_false_of_ne hsig
  rcases hgate with h | h | h
  · rw [Bool.or_eq_false_iff, Bool.or_eq_false_iff, Bool.or_eq_false_iff] at h
    obtain ⟨⟨⟨ha, hb⟩, hc⟩, hd⟩ := h
    simp [verifyHandler, ho, hp, hsg, hv, ha, hb, hc, hd]
  · simp [verifyHandler, ho, hp, hsg, hv, h]
  · simp [verifyHandler, ho, hp, hsg, hv, h]

/-- Witness for claim C6: `bookOnPaymentFailure=false` with every test-mode
trigger satisfied. -/
theorem claim_C6_witness :
    (verifyHandler envFix cfgHardFix noFault storeFix reqInvalidFix).resp.status = 400 ∧
    (verifyHandler envFix cfgHardFix noFault storeFix reqInvalidFix).resp.success = false ∧
    (verifyHandler envFix cfgHardFix noFault storeFix reqInvalidFix).resp.error
      = some "Invalid payment signature" ∧
    (verifyHandler envFix cfgHardFix noFault storeFix reqInvalidFix).resp.consultation_booked
      = none ∧
    (verifyHandler envFix cfgHardFix noFault storeFix reqInvalidFix).store = storeFix ∧
    (verifyHandler envFix cfgHardFix noFault storeFix reqInvalidFix).notif = none :=
  claim_C6_hard_fail envFix cfgHardFix noFault storeFix reqInvalidFix rfl rfl rfl
    reqInvalidFix_signature_ne (Or.inr (Or.inr rfl))

/-- Claim C7: record-store faults never change the HTTP outcome. For a verify
request with a valid signature the response is `success:true` under any
combination of throwing backends, and the response is identical to the
fault-free response — persistence errors are logged and swallowed, never
surfaced. -/
theorem claim_C7_persistence_faults_invisible (env : Env) (cfg : AppConfig) (w : World)
    (st : Store) (req : VerifyRequest)
    (ho : req.razorpay_order_id.isEmpty = false)
    (hp : req.razorpay_payment_id.isEmpty = false)
    (hs : req.razorpay_signature
      = hmacSha256Hex env.keySecret (req.razorpay_order_id ++ "|" ++ req.razorpay_payment_id)) :
    (verifyHandler env cfg w st req).resp.success = true ∧
    (verifyHandler env cfg w st req).resp = (verifyHandler env cfg noFault st req).resp := by
  have hsg : req.razorpay_signature.isEmpty = false := isEmpty_eq_false_of_eq_hmac hs
  have hv : verifySignature req.razorpay_order_id req.razorpay_payment_id
      req.razorpay_signature env.keySecret = true := (verifySignature_iff ..).mpr hs
  simp [verifyHandler, ho, hp, hsg, hv]

/-- Witness for claim C7: both backends throw, response unchanged. -/
theorem claim_C7_witness :
    (verifyHandler envFix cfgFix ⟨true, true, none⟩ storeFix reqValidFix).resp.success = true ∧
    (verifyHandler envFix cfgFix ⟨true, true, none⟩ storeFix reqValidFix).resp
      = (verifyHandler envFix cfgFix noFault storeFix reqValidFix).resp :=
  claim_C7_persistence_faults_invisible envFix cfgFix ⟨true, true, none⟩ storeFix reqValidFix
    rfl rfl (by decide)

/-- Claim C10 (implicit): the soft-fail gate also requires a present
`consultationId` — with an invalid signature and no `consultationId`, the
handler hard-fails with the 400 `{success:false, error, payment_id}` response
and touches nothing, even when every test-mode trigger holds and
`bookOnPaymentFailure` is not false. -/
theorem claim_C10_missing_linked_record (env : Env) (cfg : AppConfig) (w : World) (st : Store)
    (req : VerifyRequest)
    (ho : req.razorpay_order_id.isEmpty = false)
    (hp : req.razorpay_payment_id.isEmpty = false)
    (hsg : req.razorpay_signature.isEmpty = false)
    (hsig : req.razorpay_signature ≠ hmacSha256Hex env.keySecret
      (req.razorpay_order_id ++ "|" ++ req.razorpay_payment_id))
    (hcid : req.consultationId = none) :
    (verifyHandler env cfg w st req).resp =
      { status := 400, success := false, error := some "Invalid payment signature",
        message := none, payment_id := some req.razorpay_payment_id, order_id := none,
        verified_at := none, consultation_booked := none } ∧
    (verifyHandler env cfg w st req).store = st ∧
    (verifyHandler env cfg w st req).notif = none := by
  have hv := verifySignature_false_of_ne hsig
  have htr : truthyS req.consultationId = false := by
    rw [hcid]
    rfl
  simp [verifyHandler, ho, hp, hsg, hv, htr]

/-- Witness for claim C10: every test-mode trigger on, `consultationId`
absent. -/
theorem claim_C10_witness :
    (verifyHandler envFix cfgFix noFault storeFix
        { reqInvalidFix with consultationId := none, isTestMode := true }).resp =
      { status := 400, success := false, error := some "Invalid payment signature",
        message := none, payment_id := some "pay_test_1", order_id := none,
        verified_at := none, consultation_booked := none } ∧
    (verifyHandler envFix cfgFix noFault storeFix
        { reqInvalidFix with consultationId := none, isTestMode := true }).store = storeFix ∧
    (verifyHandler envFix cfgFix noFault storeFix
        { reqInvalidFix with consultationId := none, isTestMode := true }).notif = none :=
  claim_C10_missing_linked_record envFix cfgFix noFault storeFix
    { reqInvalidFix with consultationId := none, isTestMode := true } rfl rfl rfl
    (by decide) rfl

/-- Claim C1: with an invalid signature, a present (truthy) `consultationId`,
`testMode.bookOnPaymentFailure` not explicitly false, and at least one
test-mode trigger (test payment-id pattern, test gateway credential, declared
test mode, or tenant `autoDetect`), the handler takes the soft-fail path: the
response is 200 with `success:false` and `consultation_booked:true`, and —
when the record store is operative (orderUpdate enabled via Firebase, no
custom endpoint, Firestore reachable) and the linked record exists — the
linked record's `paymentStatus` is written to `pending` (not `failed`, not
left as it was). -/
theorem claim_C1_soft_fail (env : Env) (cfg : AppConfig) (w : World) (st : Store)
    (req : VerifyRequest) (cid : String) (d : DocFields)
    (ho : req.razorpay_order_id.isEmpty = false)
    (hp : req.razorpay_payment_id.isEmpty = false)
    (hsg : req.razorpay_signature.isEmpty = false)
    (hsig : req.razorpay_signature ≠ hmacSha256Hex env.keySecret
      (req.razorpay_order_id ++ "|" ++ req.razorpay_payment_id))
    (hcid : req.consultationId = some cid)
    (hct : truthyS req.consultationId = true)
    (hbook : (cfg.testMode.bind fun t => t.bookOnPaymentFailure) ≠ some false)
    (htrig : strStartsWith req.razorpay_payment_id "pay_test_" = true
      ∨ strStartsWith env.keyId "rzp_test_" = true
      ∨ req.isTestMode = true
      ∨ truthyB (cfg.testMode.bind fun t => t.autoDetect) = true)
    (hen : truthyB (cfg.orderUpdate.bind fun o => o.enabled) = true)
    (huf : truthyB (cfg.orderUpdate.bind fun o => o.useFirebase) = true)
    (hfa : st.firestoreAvailable = true)
    (hft : w.fsThrows = false)
    (hdoc : getDoc st.fs (consultCollOf cfg) cid = some d) :
    (verifyHandler env cfg w st req).resp.success = false ∧
    (verifyHandler env cfg w st req).resp.consultation_booked = some true ∧
    (verifyHandler env cfg w st req).resp.status = 200 ∧
    getDoc (verifyHandler env cfg w st req).store.fs (consultCollOf cfg) cid
      = some (applyUpdate d ⟨"pending", none, none, env.now⟩) ∧
    (applyUpdate d ⟨"pending", none, none, env.now⟩).paymentStatus = some "pending" := by
  have hv := verifySignature_false_of_ne hsig
  have hb2 : ((cfg.testMode.bind fun t => t.bookOnPaymentFailure) == some false) = false :=
    beq_eq_false_iff_ne.mpr hbook
  have hgd : req.consultationId.getD "" = cid := by
    rw [hcid]
    rfl
  have hpp : (("pending" : String) == "paid") = false := by decide
  have hupd : updateOrderPaymentStatus cfg w env.now st cid "pending" none
      = { st with fs := (putDoc st.fs (consultCollOf cfg) cid
            (applyUpdate d ⟨"pending", none, none, env.now⟩)) } := by
    simp [updateOrderPaymentStatus, hen, huf, hfa, hft, hdoc, hpp, truthyS]
  rcases htrig with h | h | h | h <;>
    simp [verifyHandler, ho, hp, hsg, hv, h, hct, hb2, hgd, hupd, getDoc_putDoc_same, applyUpdate]

/-- Witness for claim C1 at a concrete soft-fail request: the stored
consultation record of the fixture ends with `paymentStatus = "pending"`. -/
theorem claim_C1_witness :
    (verifyHandler envFix cfgFix noFault storeFix reqInvalidFix).resp.success = false ∧
    (verifyHandler envFix cfgFix noFault storeFix reqInvalidFix).resp.consultation_booked
      = some true ∧
    (verifyHandler envFix cfgFix noFault storeFix reqInvalidFix).resp.status = 200 ∧
    getDoc (verifyHandler envFix cfgFix noFault storeFix reqInvalidFix).store.fs
        (consultCollOf cfgFix) "c1"
      = some (applyUpdate docFix ⟨"pending", none, none, envFix.now⟩) ∧
    (applyUpdate docFix ⟨"pending", none, none, envFix.now⟩).paymentStatus = some "pending" :=
  claim_C1_soft_fail envFix cfgFix noFault storeFix reqInvalidFix "c1" docFix rfl rfl rfl
    reqInvalidFix_signature_ne rfl rfl (by decide) (Or.inl (by decide)) (by decide)
    (by decide) rfl rfl (by decide)

/-- Claim C4 counterexample: a concrete soft-fail run (database configured, no
faults) in which the handler books the consultation (`consultation_booked =
some true`, so the TestModeSoftFail path was taken) yet inserts NO
PaymentAttempt — the payments node stays empty, where the claim demands a
`failed` record. -/
theorem claim_C4_counterexample :
    envFix.databaseConfigured = true ∧
    (verifyHandler envFix cfgFix noFault storeFix reqInvalidFix).resp.consultation_booked
      = some true ∧
    (verifyHandler envFix cfgFix noFault storeFix reqInvalidFix).store.payments = [] := by
  refine ⟨rfl, ?_, ?_⟩
  · decide
  · decide

/-- Claim C4 amended: a `completed`, `verified` PaymentAttempt is appended to
the payments store after every successful verification (when Firebase is
configured and the client does not throw); the TestModeSoftFail path of the
verify endpoint inserts no PaymentAttempt at all — the payments store is left
exactly as it was. -/
theorem claim_C4_amended :
    (∀ (env : Env) (cfg : AppConfig) (w : World) (st : Store) (req : VerifyRequest),
      req.razorpay_order_id.isEmpty = false →
      req.razorpay_payment_id.isEmpty = false →
      req.razorpay_signature = hmacSha256Hex env.keySecret
        (req.razorpay_order_id ++ "|" ++ req.razorpay_payment_id) →
      env.databaseConfigured = true →
      w.rtdbThrows = false →
      (verifyHandler env cfg w st req).store.payments = st.payments ++
        [{ razorpayPaymentId := req.razorpay_payment_id,
           razorpayOrderId := req.razorpay_order_id,
           razorpaySignature := some req.razorpay_signature,
           amount := amountOrNull req.amount,
           status := "completed",
           verified := some true,
           consultationId := orNullS req.consultationId,
           createdAt := env.now }]) ∧
    (∀ (env : Env) (cfg : AppConfig) (w : World) (st : Store) (req : VerifyRequest),
      req.razorpay_order_id.isEmpty = false →
      req.razorpay_payment_id.isEmpty = false →
      req.razorpay_signature.isEmpty = false →
      req.razorpay_signature ≠ hmacSha256Hex env.keySecret
        (req.razorpay_order_id ++ "|" ++ req.razorpay_payment_id) →
      truthyS req.consultationId = true →
      (cfg.testMode.bind fun t => t.bookOnPaymentFailure) ≠ some false →
      (strStartsWith req.razorpay_payment_id "pay_test_" = true
        ∨ strStartsWith env.keyId "rzp_test_" = true
        ∨ req.isTestMode = true
        ∨ truthyB (cfg.testMode.bind fun t => t.autoDetect) = true) →
      (verifyHandler env cfg w st req).store.payments = st.payments) := by
  constructor
  · intro env cfg w st req ho hp hs hdb hrt
    have hsg : req.razorpay_signature.isEmpty = false := isEmpty_eq_false_of_eq_hmac hs
    have hv : verifySignature req.razorpay_order_id req.razorpay_payment_id
        req.razorpay_signature env.keySecret = true := (verifySignature_iff ..).mpr hs
    by_cases hct : truthyS req.consultationId = true
    · simp [verifyHandler, ho, hp, hsg, hv, hct, updateOrderPaymentStatus_payments,
        savePaymentToDatabase, hdb, hrt]
    · have hcf : truthyS req.consultationId = false := by
        cases hx : truthyS req.consultationId
        · rfl
        · exact absurd hx hct
      simp [verifyHandler, ho, hp, hsg, hv, hcf, savePaymentToDatabase, hdb, hrt]
  · intro env cfg w st req ho hp hsg hsig hct hbook htrig
    have hv := verifySignature_false_of_ne hsig
    have hb2 : ((cfg.testMode.bind fun t => t.bookOnPaymentFailure) == some false) = false :=
      beq_eq_false_iff_ne.mpr hbook
    rcases htrig with h | h | h | h <;>
      simp [verifyHandler, ho, hp, hsg, hv, h, hct, hb2, updateOrderPaymentStatus_payments]

/-- Witness for the amended claim C4 at the concrete fixtures: success inserts
the completed record, soft-fail inserts nothing. -/
theorem claim_C4_witness :
    (verifyHandler envFix cfgFix noFault storeFix reqValidFix).store.payments
      = storeFix.payments ++
        [{ razorpayPaymentId := "pay_test_1", razorpayOrderId := "order_1",
           razorpaySignature := some (hmacSha256Hex "testsecret" "order_1|pay_test_1"),
           amount := some 50000, status := "completed", verified := some true,
           consultationId := some "c1", createdAt := 5 }] ∧
    (verifyHandler envFix cfgFix noFault storeFix reqInvalidFix).store.payments
      = storeFix.payments :=
  ⟨claim_C4_amended.1 envFix cfgFix noFault storeFix reqValidFix rfl rfl (by decide) rfl rfl,
   claim_C4_amended.2 envFix cfgFix noFault storeFix reqInvalidFix rfl rfl rfl
     reqInvalidFix_signature_ne (by decide) (by decide) (Or.inr (Or.inr (Or.inr (by decide))))⟩

/-- Claim C2 counterexample: `verify` does NOT return false for every other
secret. HMAC-SHA256 zero-pads keys shorter than its 64-byte block, so a secret
extended with a NUL byte is a different secret with identical digests: the
signature computed under `"testsecret"` verifies under `"testsecret" ++ "\x00"`
as well. -/
theorem claim_C2_counterexample :
    "testsecret".push (Char.ofNat 0) ≠ "testsecret" ∧
    verifySignature "order_1" "pay_1" (hmacSha256Hex "testsecret" "order_1|pay_1")
      ("testsecret".push (Char.ofNat 0)) = true := by
  constructor
  · decide
  · decide

/-- Claim C2 amended: `verify` returns true iff the supplied signature equals
the hex HMAC-SHA256 digest of `orderId|paymentId` under the secret; any other
signature makes it return false, and a changed secret, orderId or paymentId
makes it return false whenever the resulting digest differs (HMAC key
collisions — e.g. NUL-padding, see the counterexample — are the only
exception, so the unqualified "any other secret" clause does not hold). -/
theorem claim_C2_amended (orderId paymentId signature secret : String) :
    (verifySignature orderId paymentId signature secret = true ↔
      signature = hmacSha256Hex secret (orderId ++ "|" ++ paymentId)) ∧
    (∀ signatureX, signatureX ≠ hmacSha256Hex secret (orderId ++ "|" ++ paymentId) →
      verifySignature orderId paymentId signatureX secret = false) ∧
    (∀ secretX orderIdX paymentIdX,
      hmacSha256Hex secretX (orderIdX ++ "|" ++ paymentIdX)
        ≠ hmacSha256Hex secret (orderId ++ "|" ++ paymentId) →
      verifySignature orderIdX paymentIdX
        (hmacSha256Hex secret (orderId ++ "|" ++ paymentId)) secretX = false) := by
  refine ⟨verifySignature_iff .., ?_, ?_⟩
  · intro sX h
    exact verifySignature_false_of_ne h
  · intro secretX oX pX h
    exact verifySignature_false_of_ne (fun hh => h hh.symm)

/-- Witness for the amended claim C2: the correct signature verifies, a
mismatched one does not. -/
theorem claim_C2_witness :
    verifySignature "order_1" "pay_1" (hmacSha256Hex "k" "order_1|pay_1") "k" = true ∧
    verifySignature "order_1" "pay_1" "bad" "k" = false :=
  ⟨(claim_C2_amended "order_1" "pay_1" (hmacSha256Hex "k" "order_1|pay_1") "k").1.mpr
      (by decide),
   (claim_C2_amended "order_1" "pay_1" "x" "k").2.1 "bad" (by decide)⟩

/-- The partial tenant override `{notifications: {provider: 'custom'}}` of the
claim C8 scenario. -/
def customProviderOverride : AppConfig :=
  { name := none,
    notifications := some
      { enabled := none, provider := some "custom", onesignal := none, customEndpoint := none },
    orderUpdate := none,
    testMode := none }

/-- Claim C8: `mergeWithDefault` is a shallow per-key overlay for each nested
object (`testMode`, `notifications`, `notifications.onesignal`, `orderUpdate`,
`orderUpdate.collections`): every key named by the tenant wins, every key not
named keeps the default's value (first three conjuncts, stated per key via
`<|>`); a tenant that omits `notifications` entirely inherits the default's
`notifications` object unchanged (fourth conjunct); and for the override
`{notifications: {provider: 'custom'}}` the result keeps
`default.notifications.onesignal` untouched and changes only `provider`
(fifth conjunct). -/
theorem claim_C8_merge_shallow :
    (∀ d a : AppConfig, (mergeWithDefault d a).testMode = some
      { autoDetect := (a.testMode.bind fun t => t.autoDetect)
          <|> (d.testMode.bind fun t => t.autoDetect),
        bookOnPaymentFailure := (a.testMode.bind fun t => t.bookOnPaymentFailure)
          <|> (d.testMode.bind fun t => t.bookOnPaymentFailure) }) ∧
    (∀ d a : AppConfig, (mergeWithDefault d a).notifications = some
      { enabled := (a.notifications.bind fun n => n.enabled)
          <|> (d.notifications.bind fun n => n.enabled),
        provider := (a.notifications.bind fun n => n.provider)
          <|> (d.notifications.bind fun n => n.provider),
        customEndpoint := (a.notifications.bind fun n => n.customEndpoint)
          <|> (d.notifications.bind fun n => n.customEndpoint),
        onesignal := some
          { appId := ((a.notifications.bind fun n => n.onesignal).bind fun o => o.appId)
              <|> ((d.notifications.bind fun n => n.onesignal).bind fun o => o.appId),
            restApiKey := ((a.notifications.bind fun n => n.onesignal).bind fun o => o.restApiKey)
              <|> ((d.notifications.bind fun n => n.onesignal).bind fun o => o.restApiKey) } }) ∧
    (∀ d a : AppConfig, (mergeWithDefault d a).orderUpdate = some
      { enabled := (a.orderUpdate.bind fun o => o.enabled)
          <|> (d.orderUpdate.bind fun o => o.enabled),
        useFirebase := (a.orderUpdate.bind fun o => o.useFirebase)
          <|> (d.orderUpdate.bind fun o => o.useFirebase),
        endpoint := (a.orderUpdate.bind fun o => o.endpoint)
          <|> (d.orderUpdate.bind fun o => o.endpoint),
        collections := some
          { orders := ((a.orderUpdate.bind fun o => o.collections).bind fun c => c.orders)
              <|> ((d.orderUpdate.bind fun o => o.collections).bind fun c => c.orders),
            consultations :=
              ((a.orderUpdate.bind fun o => o.collections).bind fun c => c.consultations)
              <|> ((d.orderUpdate.bind fun o => o.collections).bind fun c => c.consultations),
            payments := ((a.orderUpdate.bind fun o => o.collections).bind fun c => c.payments)
              <|> ((d.orderUpdate.bind fun o => o.collections).bind fun c => c.payments),
            users := ((a.orderUpdate.bind fun o => o.collections).bind fun c => c.users)
              <|> ((d.orderUpdate.bind fun o => o.collections).bind fun c => c.users) } }) ∧
    (∀ (dnm : Option String) (dn : NotificationsConfig) (os : OneSignalConfig)
        (dou aou : Option OrderUpdateConfig) (dtm atm : Option TestModeConfig)
        (anm : Option String),
      (mergeWithDefault ⟨dnm, some { dn with onesignal := some os }, dou, dtm⟩
        ⟨anm, none, aou, atm⟩).notifications = some { dn with onesignal := some os }) ∧
    (∀ (dnm : Option String) (dn : NotificationsConfig) (os : OneSignalConfig)
        (dou : Option OrderUpdateConfig) (dtm : Option TestModeConfig),
      (mergeWithDefault ⟨dnm, some { dn with onesignal := some os }, dou, dtm⟩
        customProviderOverride).notifications = some
        { enabled := dn.enabled, provider := some "custom", onesignal := some os,
          customEndpoint := dn.customEndpoint }) :=
  ⟨fun _ _ => rfl, fun _ _ => rfl, fun _ _ => rfl, fun _ _ _ _ _ _ _ _ => rfl,
   fun _ _ _ _ _ => rfl⟩

/-! Fixtures for claim C9. -/

def emptyStore : Store := ⟨true, ⟨[]⟩, ⟨[]⟩, []⟩

/-- A tenant config whose OneSignal REST key is configured, so dispatch
actually happens. -/
def notifFixConfig : NotificationsConfig :=
  { enabled := some true, provider := some "onesignal",
    onesignal := some { appId := some "os-app", restApiKey := some "os-key" },
    customEndpoint := none }

def cfgNotifFix : AppConfig := { cfgFix with notifications := some notifFixConfig }

/-- A linked record whose patient and doctor are the same user. -/
def dupDoc : DocFields := { emptyDoc with patientId := some "u1", doctorId := some "u1" }

/-- Claim C9 counterexample: recipient resolution is NOT deduplicated — for a
record whose patient id equals its doctor id, the provider is called with the
id twice. -/
theorem claim_C9_counterexample :
    sendPaymentNotification cfgNotifFix noFault emptyStore "" dupDoc
      = some ⟨"onesignal", ["u1", "u1"]⟩ ∧
    ¬ List.Nodup (["u1", "u1"] : List String) := by
  constructor
  · decide
  · decide

/-- Claim C9 amended: recipient ids are collected in the fixed order
patient/user field, then doctor/provider/seller field, then the admin-role
users — without deduplication; when the collected list is empty the send is
skipped (no provider call), and any dispatched provider call carries exactly
the collected, non-empty list. -/
theorem claim_C9_amended (cfg : AppConfig) (w : World) (st : Store) (envKey : String)
    (d : DocFields) :
    (collectRecipients d (adminIds w st (usersCollOf cfg))
      = firstTruthy [d.patientId, d.userId]
        ++ firstTruthy [d.doctorId, d.providerId, d.sellerId]
        ++ adminIds w st (usersCollOf cfg)) ∧
    (collectRecipients d (adminIds w st (usersCollOf cfg)) = [] →
      sendPaymentNotification cfg w st envKey d = none) ∧
    (∀ call, sendPaymentNotification cfg w st envKey d = some call →
      call.recipients = collectRecipients d (adminIds w st (usersCollOf cfg))
        ∧ call.recipients ≠ []) := by
  refine ⟨rfl, ?_, ?_⟩
  · intro hids
    simp [sendPaymentNotification, hids]
  · intro call hcall
    by_cases hen : truthyB (cfg.notifications.bind fun n => n.enabled) = true
    · by_cases hemp : (collectRecipients d (adminIds w st (usersCollOf cfg))).isEmpty = true
      · simp [sendPaymentNotification, hen, hemp] at hcall
      · have hemf : (collectRecipients d (adminIds w st (usersCollOf cfg))).isEmpty = false := by
          cases hx : (collectRecipients d (adminIds w st (usersCollOf cfg))).isEmpty
          · rfl
          · exact absurd hx hemp
        have hne : collectRecipients d (adminIds w st (usersCollOf cfg)) ≠ [] := by
          intro hx
          rw [hx] at hemf
          simp at hemf
        simp only [sendPaymentNotification, hen, hemf] at hcall
        simp at hcall
        split at hcall
        · split at hcall
          · exact absurd hcall (by simp)
          · cases hcall
            exact ⟨rfl, hne⟩
        · split at hcall
          · split at hcall
            · cases hcall
              exact ⟨rfl, hne⟩
            · exact absurd hcall (by simp)
          · exact absurd hcall (by simp)
    · have hf : truthyB (cfg.notifications.bind fun n => n.enabled) = false := by
        cases hx : truthyB (cfg.notifications.bind fun n => n.enabled)
        · rfl
        · exact absurd hx hen
      simp [sendPaymentNotification, hf] at hcall

/-- Witness for the amended claim C9: the dispatched call of the
counterexample fixture carries exactly the collected (duplicated, non-empty)
list. -/
theorem claim_C9_witness :
    (["u1", "u1"] : List String)
      = collectRecipients dupDoc (adminIds noFault emptyStore (usersCollOf cfgNotifFix)) ∧
    (["u1", "u1"] : List String) ≠ [] :=
  (claim_C9_amended cfgNotifFix noFault emptyStore "" dupDoc).2.2 ⟨"onesignal", ["u1", "u1"]⟩
    (by decide)

end PaymentService
